import Mathlib

/-!
Verification of the MomentumStrategy trading plugin
(src/strategies/MomentumStrategy.py).

The strategy is a pure signal-computation pipeline over candle data.  We
embed it shallowly: prices and indicator values are exact rationals, and a
pandas column that can hold NaN becomes `List (Option ℚ)` — `none` plays
NaN's role, and every comparison against `none` is false, exactly as a
float comparison against NaN is false in pandas/numpy.
-/

namespace Momentum

/-- One OHLCV candle, the row type of the raw dataframe. -/
structure Candle where
  openPrice : ℚ
  high : ℚ
  low : ℚ
  close : ℚ
  volume : ℚ
deriving DecidableEq

/-!
Signal evaluation (`populate_entry_trend`, lines 183-265, and
`populate_exit_trend`, lines 267-329) reads an already-annotated dataframe:
it only consumes the columns named below, comparing them against constants.
We therefore model its input as an arbitrary row of those columns, with the
derived numeric columns `Option ℚ` (NaN-able) and the two `np.where`-produced
crossover columns plain `ℚ` (they hold the numerals 0/1, never NaN).
-/

/-- One row of the indicator-annotated dataframe, restricted to the columns
the signal evaluator reads. -/
structure IndRow where
  close : ℚ
  macd_cross : ℚ
  macd_cross_down : ℚ
  volume_ratio : Option ℚ
  price_momentum : Option ℚ
  rsi : Option ℚ
  ema_20 : Option ℚ
  adx : Option ℚ
  stoch_k : Option ℚ
  stoch_d : Option ℚ
  williams_r : Option ℚ
  cci : Option ℚ
  bb_percent : Option ℚ
deriving DecidableEq

/-- The user-tunable parameters the signal rules read (`volume_factor`,
`rsi_oversold`, `rsi_overbought`; defaults 1.5, 30, 70). -/
structure SignalParams where
  volume_factor : ℚ
  rsi_oversold : ℚ
  rsi_overbought : ℚ
deriving DecidableEq

/-- Column-value > scalar with pandas semantics: NaN (`none`) compares false. -/
def oGT (a : Option ℚ) (q : ℚ) : Bool :=
  a.any fun x => decide (q < x)

/-- Column-value < scalar with pandas semantics: NaN (`none`) compares false. -/
def oLT (a : Option ℚ) (q : ℚ) : Bool :=
  a.any fun x => decide (x < q)

theorem oGT_iff (a : Option ℚ) (q : ℚ) : oGT a q = true ↔ ∃ x, a = some x ∧ q < x := by
  cases a <;> simp [oGT]

theorem oLT_iff (a : Option ℚ) (q : ℚ) : oLT a q = true ↔ ∃ x, a = some x ∧ x < q := by
  cases a <;> simp [oLT]

/-- The long-entry conjunction of `populate_entry_trend` (lines 192-226), in
source order.  `0.01 = 1/100`, `0.8 = 8/10`. -/
def enterLongRow (p : SignalParams) (r : IndRow) : Bool :=
  decide (r.macd_cross = 1) &&
  oGT r.volume_ratio p.volume_factor &&
  oGT r.price_momentum (1/100) &&
  oLT r.rsi p.rsi_overbought &&
  oGT r.rsi p.rsi_oversold &&
  oLT r.ema_20 r.close &&
  oGT r.adx 25 &&
  oLT r.stoch_k 80 &&
  oLT r.stoch_d 80 &&
  oGT r.williams_r (-20) &&
  oLT r.cci 100 &&
  oLT r.bb_percent (8/10)

/-- The short-entry conjunction of `populate_entry_trend` (lines 229-263), in
source order.  Note the source's short thresholds: `stoch > 20`,
`williams_r < -80`, `cci > -100`, `bb_percent > 0.2`. -/
def enterShortRow (p : SignalParams) (r : IndRow) : Bool :=
  decide (r.macd_cross_down = 1) &&
  oGT r.volume_ratio p.volume_factor &&
  oLT r.price_momentum (-(1/100)) &&
  oGT r.rsi p.rsi_oversold &&
  oLT r.rsi p.rsi_overbought &&
  oGT r.ema_20 r.close &&
  oGT r.adx 25 &&
  oGT r.stoch_k 20 &&
  oGT r.stoch_d 20 &&
  oLT r.williams_r (-80) &&
  oGT r.cci (-100) &&
  oGT r.bb_percent (1/5)

/-- The long-exit disjunction of `populate_exit_trend` (lines 276-300), in
source order. -/
def exitLongRow (p : SignalParams) (r : IndRow) : Bool :=
  decide (r.macd_cross_down = 1) ||
  oGT r.rsi p.rsi_overbought ||
  oGT r.bb_percent (9/10) ||
  oGT r.stoch_k 80 ||
  oGT r.stoch_d 80 ||
  oLT r.williams_r (-20) ||
  oGT r.cci 100 ||
  oLT r.price_momentum (-(1/50))

/-- The short-exit disjunction of `populate_exit_trend` (lines 303-327), in
source order. -/
def exitShortRow (p : SignalParams) (r : IndRow) : Bool :=
  decide (r.macd_cross = 1) ||
  oLT r.rsi p.rsi_oversold ||
  oLT r.bb_percent (1/10) ||
  oLT r.stoch_k 20 ||
  oLT r.stoch_d 20 ||
  oGT r.williams_r (-80) ||
  oLT r.cci (-100) ||
  oGT r.price_momentum (1/50)

/-- A row of the frame after `populate_entry_trend`: the input row plus the
two entry flags.  The flag is `true` exactly where the source's `.loc`
assignment writes 1 (elsewhere the pandas column holds no signal). -/
structure EntryRow where
  base : IndRow
  enter_long : Bool
  enter_short : Bool
deriving DecidableEq

/-- A row of the frame after `populate_exit_trend`. -/
structure ExitRow where
  base : IndRow
  exit_long : Bool
  exit_short : Bool
deriving DecidableEq

/-- `populate_entry_trend`: evaluates both entry conjunctions at every
position of the frame. -/
def populate_entry_trend (p : SignalParams) (f : List IndRow) : List EntryRow :=
  f.map fun r => ⟨r, enterLongRow p r, enterShortRow p r⟩

/-- `populate_exit_trend`: evaluates both exit disjunctions at every
position of the frame. -/
def populate_exit_trend (p : SignalParams) (f : List IndRow) : List ExitRow :=
  f.map fun r => ⟨r, exitLongRow p r, exitShortRow p r⟩

/-- The defaults of the tunable signal parameters (`volume_factor = 1.5`,
`rsi_oversold = 30`, `rsi_overbought = 70`). -/
def defaultSignalParams : SignalParams :=
  { volume_factor := 3/2, rsi_oversold := 30, rsi_overbought := 70 }

/-- A fully-populated row with mid-range indicator values: no crossover, RSI
50, stochastics 50, Williams %R −50, CCI 0, bb-percent 0.5, flat momentum. -/
def neutralRow : IndRow :=
  { close := 100, macd_cross := 0, macd_cross_down := 0, volume_ratio := some 2,
    price_momentum := some 0, rsi := some 50, ema_20 := some 100, adx := some 30,
    stoch_k := some 50, stoch_d := some 50, williams_r := some (-50),
    cci := some 0, bb_percent := some (1/2) }

/-- Row-level mutual exclusion of the two entry conjunctions: the long entry
needs `price_momentum > 0.01` and the short entry `price_momentum < -0.01`
on the same cell, so they can never hold together (a `none` cell fails
both). -/
theorem enterRow_not_both (p : SignalParams) (r : IndRow) :
    ¬(enterLongRow p r = true ∧ enterShortRow p r = true) := by
  rintro ⟨hl, hs⟩
  unfold enterLongRow at hl
  unfold enterShortRow at hs
  simp only [Bool.and_eq_true, oGT_iff, oLT_iff, decide_eq_true_eq] at hl hs
  obtain ⟨m, hm, hm1⟩ := hl.1.1.1.1.1.1.1.1.1.2
  obtain ⟨m', hm', hm'1⟩ := hs.1.1.1.1.1.1.1.1.1.2
  rw [hm] at hm'
  injection hm' with h
  subst h
  linarith

/-- C2: for every indicator frame and position, the enter-long and
enter-short flags produced by `populate_entry_trend` are never both true:
their momentum conditions (`> 0.01` vs `< -0.01`) read the same cell. -/
theorem enter_flags_mutually_exclusive (p : SignalParams) (f : List IndRow)
    (i : ℕ) (s : EntryRow) (hs : (populate_entry_trend p f)[i]? = some s) :
    ¬(s.enter_long = true ∧ s.enter_short = true) := by
  unfold populate_entry_trend at hs
  rw [List.getElem?_map] at hs
  obtain ⟨r, _, hr2⟩ := Option.map_eq_some'.mp hs
  rw [← hr2]
  exact enterRow_not_both p r

/-- The row `populate_entry_trend` produces from `neutralRow` under the
default parameters. -/
def neutralEntry : EntryRow :=
  ⟨neutralRow, enterLongRow defaultSignalParams neutralRow,
    enterShortRow defaultSignalParams neutralRow⟩

theorem enter_flags_mutually_exclusive_witness :
    ¬(neutralEntry.enter_long = true ∧ neutralEntry.enter_short = true) :=
  enter_flags_mutually_exclusive defaultSignalParams [neutralRow] 0 neutralEntry rfl

/-- C1 (code evaluated at the failing input): a row whose Williams %R is −50
— with every other indicator neutral — satisfies the long-exit disjunction
(`williams_r < -20`, line 292) and the short-exit disjunction
(`williams_r > -80`, line 319) at once, so `populate_exit_trend` raises both
exit flags at the same position, contradicting the spec's invariant and the
repository's own test (`test_short_exit_conditions`). -/
theorem exit_flags_conflict :
    exitLongRow defaultSignalParams neutralRow = true ∧
    exitShortRow defaultSignalParams neutralRow = true := by
  constructor <;>
    norm_num [exitLongRow, exitShortRow, oGT, oLT, defaultSignalParams, neutralRow, Option.any]

/-- The short-entry conjunction as the spec's words describe it: the same
first six conditions, with the stochastic/williams/cci/bb thresholds of the
long entry "inverted symmetrically ... per the documented pairing 80/20,
±20, ±100, 0.8/0.2".  For Williams %R the pairing "±20" sends the long's
`williams_r > -20` to `williams_r < 20` (the negated value; the other
admissible reading, the complementary inequality `williams_r < -20`, agrees
with this one on the counterexample below). -/
def enterShortClaimedRow (p : SignalParams) (r : IndRow) : Bool :=
  decide (r.macd_cross_down = 1) &&
  oGT r.volume_ratio p.volume_factor &&
  oLT r.price_momentum (-(1/100)) &&
  oGT r.rsi p.rsi_oversold &&
  oLT r.rsi p.rsi_overbought &&
  oGT r.ema_20 r.close &&
  oGT r.adx 25 &&
  oGT r.stoch_k 20 &&
  oGT r.stoch_d 20 &&
  oLT r.williams_r 20 &&
  oGT r.cci (-100) &&
  oGT r.bb_percent (1/5)

/-- A row satisfying every short-entry condition of the source except its
Williams %R test: bearish crossover, high volume, momentum −0.02, RSI 50,
close below EMA-20, ADX 30, stochastics 50, CCI 0, bb-percent 0.5 — and
Williams %R −50, which is below the claim's threshold (−50 < 20, and also
−50 < −20) but not below the source's −80. -/
def shortSetupRow : IndRow :=
  { close := 90, macd_cross := 0, macd_cross_down := 1, volume_ratio := some 2,
    price_momentum := some (-(1/50)), rsi := some 50, ema_20 := some 100,
    adx := some 30, stoch_k := some 50, stoch_d := some 50,
    williams_r := some (-50), cci := some 0, bb_percent := some (1/2) }

/-- C6 (counterexample): at `shortSetupRow` the claim's symmetric inversion
fires the short entry while the source's `populate_entry_trend` does not —
the source's Williams %R threshold for short entries is −80 (line 255), not
the ±20 pairing the claim documents. -/
theorem enter_short_claim_mismatch :
    enterShortClaimedRow defaultSignalParams shortSetupRow = true ∧
    enterShortRow defaultSignalParams shortSetupRow = false := by
  constructor <;>
    norm_num [enterShortClaimedRow, enterShortRow, oGT, oLT,
      defaultSignalParams, shortSetupRow, Option.any]

/-- C6 (amended): exact characterization of the source's short entry.  It is
the claim's condition list except for the Williams %R pair: the long's
`williams_r > -20` is mirrored to `williams_r < -80` (the in-range
complement of −20 within the oscillator's [−100, 0] range, not its negated
value). -/
theorem enter_short_characterization (p : SignalParams) (r : IndRow) :
    enterShortRow p r = true ↔
      (r.macd_cross_down = 1 ∧
       (∃ v, r.volume_ratio = some v ∧ p.volume_factor < v) ∧
       (∃ m, r.price_momentum = some m ∧ m < -(1/100)) ∧
       (∃ x, r.rsi = some x ∧ p.rsi_oversold < x ∧ x < p.rsi_overbought) ∧
       (∃ e, r.ema_20 = some e ∧ r.close < e) ∧
       (∃ a, r.adx = some a ∧ 25 < a) ∧
       (∃ k, r.stoch_k = some k ∧ 20 < k) ∧
       (∃ d, r.stoch_d = some d ∧ 20 < d) ∧
       (∃ w, r.williams_r = some w ∧ w < -80) ∧
       (∃ c, r.cci = some c ∧ -100 < c) ∧
       (∃ b, r.bb_percent = some b ∧ 1/5 < b)) := by
  unfold enterShortRow
  simp only [Bool.and_eq_true, oGT_iff, oLT_iff, decide_eq_true_eq]
  constructor
  · rintro ⟨⟨⟨⟨⟨⟨⟨⟨⟨⟨⟨h1, h2⟩, h3⟩, h4⟩, h5⟩, h6⟩, h7⟩, h8⟩, h9⟩, h10⟩, h11⟩, h12⟩
    obtain ⟨x, hx, hx1⟩ := h4
    obtain ⟨y, hy, hy1⟩ := h5
    rw [hx] at hy
    injection hy with hxy
    subst hxy
    exact ⟨h1, h2, h3, ⟨x, hx, hx1, hy1⟩, h6, h7, h8, h9, h10, h11, h12⟩
  · rintro ⟨h1, h2, h3, ⟨x, hx, hx1, hx2⟩, h6, h7, h8, h9, h10, h11, h12⟩
    exact ⟨⟨⟨⟨⟨⟨⟨⟨⟨⟨⟨h1, h2⟩, h3⟩, ⟨x, hx, hx1⟩⟩, ⟨x, hx, hx2⟩⟩, h6⟩, h7⟩, h8⟩, h9⟩, h10⟩, h11⟩, h12⟩

/-- Signal evaluation is value-preserving: every pre-existing column of the
frame reappears unchanged in the output of `populate_entry_trend` — the
entry flags are layered on top.  (Whether the Python code writes onto the
same DataFrame object or a copy is an aliasing fact invisible at value
level; pandas `.loc` assignment in fact writes onto the caller's object.) -/
theorem populate_entry_trend_preserves_columns (p : SignalParams) (f : List IndRow) :
    (populate_entry_trend p f).map EntryRow.base = f := by
  unfold populate_entry_trend
  rw [List.map_map]
  exact List.map_id'' (fun _ => rfl) f

/-- Value-preservation for `populate_exit_trend`, as for the entry stage. -/
theorem populate_exit_trend_preserves_columns (p : SignalParams) (f : List IndRow) :
    (populate_exit_trend p f).map ExitRow.base = f := by
  unfold populate_exit_trend
  rw [List.map_map]
  exact List.map_id'' (fun _ => rfl) f

/-!
The stop-loss evaluator `custom_stoploss` (lines 385-412).  Its inputs are
the elapsed seconds since trade open (the source computes
`(current_time - trade.open_date_utc).total_seconds()`), the trade side,
the live profit ratio, and the strategy's default stop ratio `self.stoploss`
(−0.10 in the class body; kept as a parameter).  `0.02 = 1/50`,
`0.015 = 3/200`, `0.01 = 1/100`.
-/

/-- `custom_stoploss`: grace period below 600 s, then a profit-tiered
trailing distance, positive for shorts and negative for longs. -/
def custom_stoploss (stoploss secondsSinceOpen : ℚ) (isShort : Bool)
    (currentProfit : ℚ) : ℚ :=
  if secondsSinceOpen < 600 then stoploss
  else if isShort then
    if 1/50 < currentProfit then 1/50
    else if 1/100 < currentProfit then 3/200
    else stoploss
  else
    if 1/50 < currentProfit then -(1/50)
    else if 1/100 < currentProfit then -(3/200)
    else stoploss

/-- C3: the full case analysis of `custom_stoploss` — grace period returns
the default ratio regardless of profit and side; afterwards profit > 0.02
gives magnitude 0.02 (sign by side), 0.01 < profit ≤ 0.02 gives magnitude
0.015, and profit ≤ 0.01 falls back to the default ratio unchanged. -/
theorem custom_stoploss_spec (s secs pr : ℚ) (sh : Bool) :
    (secs < 600 → custom_stoploss s secs sh pr = s) ∧
    (600 ≤ secs →
      (1/50 < pr → custom_stoploss s secs sh pr = if sh then 1/50 else -(1/50)) ∧
      (1/100 < pr → pr ≤ 1/50 →
        custom_stoploss s secs sh pr = if sh then 3/200 else -(3/200)) ∧
      (pr ≤ 1/100 → custom_stoploss s secs sh pr = s)) := by
  unfold custom_stoploss
  constructor
  · intro h
    rw [if_pos h]
  · intro h
    rw [if_neg (not_lt.mpr h)]
    refine ⟨fun h1 => ?_, fun h1 h2 => ?_, fun h1 => ?_⟩ <;>
      split_ifs <;> first | rfl | linarith

theorem custom_stoploss_spec_witness :
    custom_stoploss (-(1/10)) 900 true (3/100) = 1/50 := by
  have h := ((custom_stoploss_spec (-(1/10)) 900 (3/100) true).2 (by norm_num)).1
    (by norm_num)
  simpa using h

/-!
The leverage evaluator `leverage` (lines 331-383).  The host-supplied
analyzed dataframe becomes an explicit `List Candle` parameter; the
optimizer-tunable fields it reads (`base_leverage`, `max_leverage`,
`volatility_threshold`; defaults 10, 20, 0.05) become `LeverageParams`.

The source's `volatility` is `dataframe['close'].pct_change().dropna().std()`
— the square root of the sample variance of the percent returns.  To keep
the embedding executable over ℚ we carry the variance and decide the two
float comparisons `combined_volatility > threshold` and
`combined_volatility > 0.7 * threshold` exactly: with
`combined_volatility = max(√variance, atr_volatility)`, the comparison
`max(√variance, a) > t` holds iff `√variance > t or a > t`, and
`√variance > t` iff `t < 0 or t·t < variance` (`sqrtGtQ_iff` below proves
this decision procedure correct against `Real.sqrt`).
-/

/-- The tunable fields the leverage evaluator reads. -/
structure LeverageParams where
  base_leverage : ℚ
  max_leverage : ℚ
  volatility_threshold : ℚ
deriving DecidableEq

/-- Arithmetic mean of a list (pandas `.mean()`); `0` on the empty list. -/
def mean (xs : List ℚ) : ℚ := xs.sum / xs.length

/-- Percent returns `close.pct_change().dropna()`: one value per adjacent
pair, the leading NaN already dropped. -/
def pctChanges (closes : List ℚ) : List ℚ :=
  (closes.zip closes.tail).map fun pc => (pc.2 - pc.1) / pc.1

/-- Sample variance (pandas `.std()` squares to this: `ddof = 1`).  The
caller guarantees at least 19 returns, so the `length - 1` denominator is
never zero there. -/
def sampleVar (xs : List ℚ) : ℚ :=
  (xs.map fun x => (x - mean xs) ^ 2).sum / ((xs.length - 1 : ℕ) : ℚ)

/-- Largest element of a list (`rolling(...).max()` window reducer). -/
def maxList : List ℚ → ℚ
  | [] => 0
  | x :: t => t.foldl max x

/-- Smallest element of a list (`rolling(...).min()` window reducer). -/
def minList : List ℚ → ℚ
  | [] => 0
  | x :: t => t.foldl min x

/-- Pandas `rolling(w)` applied with reducer `f`: the window at position `i`
is the `w` values ending there; positions with an unfilled window are NaN.
A width-0 window never occurs (the source uses 14 and 20); it is mapped to
an all-NaN column so the function stays total. -/
def rollingD (w : ℕ) (f : List ℚ → ℚ) (xs : List ℚ) : List (Option ℚ) :=
  if w = 0 then xs.map fun _ => none
  else
    List.replicate (min (w - 1) xs.length) none ++
      (List.range (xs.length + 1 - w)).map fun j => some (f ((xs.drop j).take w))

/-- NaN-propagating binary operation on two cells (pandas column
arithmetic). -/
def omap2 (f : ℚ → ℚ → ℚ) : Option ℚ → Option ℚ → Option ℚ
  | some a, some b => some (f a b)
  | _, _ => none

/-- Decision procedure for `t < √v` when `0 ≤ v`, entirely in ℚ
(`sqrtGtQ_iff` is its correctness statement). -/
def sqrtGtQ (v t : ℚ) : Bool :=
  decide (t < 0) || decide (t * t < v)

/-- The source's `combined_volatility > threshold` test, with
`combined_volatility = max(√v, a)`, decided in ℚ. -/
def combinedGtQ (v a t : ℚ) : Bool :=
  sqrtGtQ v t || decide (t < a)

/-- Variance of the percent returns of the closes; the source's
`volatility` is its square root. -/
def volatilityVar (df : List Candle) : ℚ :=
  sampleVar (pctChanges (df.map Candle.close))

/-- The source's `atr_volatility`: last value of
`high.rolling(14).max() - low.rolling(14).min()`, divided by the latest
close; the `0.02` default applies only to an empty series (unreachable in
the ≥ 20-candle branch). -/
def atrVolatility (df : List Candle) : ℚ :=
  match (List.zipWith (omap2 fun a b => a - b)
      (rollingD 14 maxList (df.map Candle.high))
      (rollingD 14 minList (df.map Candle.low))).getLast?,
    (df.map Candle.close).getLast? with
  | some (some a), some c => a / c
  | _, _ => 1/50

/-- The volatility-tiered multiplier (lines 367-375): 0.5 above the
threshold, 0.75 above 0.7 × threshold, 1.0 otherwise. -/
def leverageMultiplier (df : List Candle) (t : ℚ) : ℚ :=
  if combinedGtQ (volatilityVar df) (atrVolatility df) t = true then 1/2
  else if combinedGtQ (volatilityVar df) (atrVolatility df) (7/10 * t) = true then 3/4
  else 1

/-- The leverage evaluator: `min(proposed, base)` under 20 candles of
history, otherwise `max(1, min(base * multiplier, max_leverage,
host_max))`. -/
def leverage (df : List Candle) (p : LeverageParams) (proposed hostMax : ℚ) : ℚ :=
  if df.length < 20 then min proposed p.base_leverage
  else
    max 1 (min (p.base_leverage * leverageMultiplier df p.volatility_threshold)
      (min p.max_leverage hostMax))

/-- Default values of the leverage parameters (10, 20, 0.05). -/
def defaultLeverageParams : LeverageParams :=
  { base_leverage := 10, max_leverage := 20, volatility_threshold := 1/20 }

/-- A trivial candle for concrete instantiations. -/
def unitCandle : Candle :=
  { openPrice := 1, high := 1, low := 1, close := 1, volume := 1 }

theorem sampleVar_nonneg (xs : List ℚ) : 0 ≤ sampleVar xs := by
  unfold sampleVar
  apply div_nonneg
  · apply List.sum_nonneg
    intro x hx
    simp only [List.mem_map] at hx
    obtain ⟨y, _, rfl⟩ := hx
    positivity
  · positivity

theorem volatilityVar_nonneg (df : List Candle) : 0 ≤ volatilityVar df :=
  sampleVar_nonneg _

/-- Correctness of the ℚ-level decision procedure against the real square
root: `sqrtGtQ v t` decides `t < √v` (for `v < 0` both sides reduce to
`t < 0`, since `√` of a negative argument is 0 and `t·t < v` is impossible). -/
theorem sqrtGtQ_iff (v t : ℚ) :
    sqrtGtQ v t = true ↔ (t : ℝ) < Real.sqrt ((v : ℝ)) := by
  unfold sqrtGtQ
  simp only [Bool.or_eq_true, decide_eq_true_eq]
  constructor
  · rintro (ht | ht)
    · exact lt_of_lt_of_le (by exact_mod_cast ht) (Real.sqrt_nonneg _)
    · refine Real.lt_sqrt_of_sq_lt ?_
      rw [pow_two]
      exact_mod_cast ht
  · intro h
    rcases lt_or_le t 0 with ht | ht
    · exact Or.inl ht
    · right
      have ht' : (0 : ℝ) ≤ (t : ℝ) := by exact_mod_cast ht
      have h2 : ((t : ℝ)) ^ 2 < (v : ℝ) := (Real.lt_sqrt ht').mp h
      rw [pow_two] at h2
      exact_mod_cast h2

/-- The combined comparison `max(√v, a) > t` is decided by `combinedGtQ`. -/
theorem combinedGtQ_iff (v a t : ℚ) :
    combinedGtQ v a t = true ↔ (t : ℝ) < max (Real.sqrt ((v : ℝ))) ((a : ℝ)) := by
  unfold combinedGtQ
  rw [Bool.or_eq_true, sqrtGtQ_iff v t, lt_max_iff]
  simp [Rat.cast_lt]

/-- In the ≥ 20-candle branch the result is the clamped tiered product. -/
theorem leverage_ge20_eq (df : List Candle) (p : LeverageParams)
    (proposed hostMax : ℚ) (h : 20 ≤ df.length) :
    leverage df p proposed hostMax =
      max 1 (min (p.base_leverage * leverageMultiplier df p.volatility_threshold)
        (min p.max_leverage hostMax)) := by
  unfold leverage
  rw [if_neg (by omega)]

theorem leverageMultiplier_pos (df : List Candle) (t : ℚ) :
    0 < leverageMultiplier df t := by
  unfold leverageMultiplier
  split_ifs <;> norm_num

theorem leverageMultiplier_le_one (df : List Candle) (t : ℚ) :
    leverageMultiplier df t ≤ 1 := by
  unfold leverageMultiplier
  split_ifs <;> norm_num

theorem leverageMultiplier_eq_half (df : List Candle) (t : ℚ)
    (h : combinedGtQ (volatilityVar df) (atrVolatility df) t = true) :
    leverageMultiplier df t = 1/2 := by
  unfold leverageMultiplier
  rw [if_pos h]

theorem leverageMultiplier_eq_mid (df : List Candle) (t : ℚ)
    (h1 : ¬combinedGtQ (volatilityVar df) (atrVolatility df) t = true)
    (h2 : combinedGtQ (volatilityVar df) (atrVolatility df) (7/10 * t) = true) :
    leverageMultiplier df t = 3/4 := by
  unfold leverageMultiplier
  rw [if_neg h1, if_pos h2]

theorem leverageMultiplier_eq_one (df : List Candle) (t : ℚ)
    (h1 : ¬combinedGtQ (volatilityVar df) (atrVolatility df) t = true)
    (h2 : ¬combinedGtQ (volatilityVar df) (atrVolatility df) (7/10 * t) = true) :
    leverageMultiplier df t = 1 := by
  unfold leverageMultiplier
  rw [if_neg h1, if_neg h2]

/-- C4: with fewer than 20 recent candles the evaluator returns
`min(proposed, base_leverage)` whatever the host maximum is. -/
theorem leverage_insufficient_history (df : List Candle) (p : LeverageParams)
    (proposed hostMax : ℚ) (h : df.length < 20) :
    leverage df p proposed hostMax = min proposed p.base_leverage := by
  unfold leverage
  rw [if_pos h]

theorem leverage_insufficient_history_witness :
    leverage [] defaultLeverageParams 7 30 = min 7 defaultLeverageParams.base_leverage :=
  leverage_insufficient_history [] defaultLeverageParams 7 30 (by norm_num)

/-- C5 (amended): with at least 20 candles the evaluator follows the tiered
clamp.  Writing `combined` for `max(√(variance of percent returns),
atr_volatility)`: above the threshold the multiplier is 0.5, between
0.7 × threshold and the threshold it is 0.75, otherwise 1.0, and the result
is `max(1, min(base × multiplier, max_leverage, host_max))`.  The bounds
`1 ≤ result ≤ min(max_leverage, host_max)` hold whenever that upper bound is
at least 1 — not unconditionally, as the counterexample below shows. -/
theorem leverage_tiering_and_clamp (df : List Candle) (p : LeverageParams)
    (proposed hostMax : ℚ) (h : 20 ≤ df.length) :
    (((p.volatility_threshold : ℝ) <
        max (Real.sqrt ((volatilityVar df : ℝ))) ((atrVolatility df : ℝ)) →
      leverage df p proposed hostMax =
        max 1 (min (p.base_leverage * (1/2)) (min p.max_leverage hostMax))) ∧
     (max (Real.sqrt ((volatilityVar df : ℝ))) ((atrVolatility df : ℝ)) ≤
        (p.volatility_threshold : ℝ) →
      7/10 * (p.volatility_threshold : ℝ) <
        max (Real.sqrt ((volatilityVar df : ℝ))) ((atrVolatility df : ℝ)) →
      leverage df p proposed hostMax =
        max 1 (min (p.base_leverage * (3/4)) (min p.max_leverage hostMax))) ∧
     (max (Real.sqrt ((volatilityVar df : ℝ))) ((atrVolatility df : ℝ)) ≤
        7/10 * (p.volatility_threshold : ℝ) →
      leverage df p proposed hostMax =
        max 1 (min p.base_leverage (min p.max_leverage hostMax)))) ∧
    (1 ≤ min p.max_leverage hostMax →
      1 ≤ leverage df p proposed hostMax ∧
      leverage df p proposed hostMax ≤ min p.max_leverage hostMax) := by
  have hq : ∀ s : ℚ, ((7/10 * s : ℚ) : ℝ) = 7/10 * (s : ℝ) := by
    intro s
    push_cast
    ring
  constructor
  · refine ⟨fun hc => ?_, fun hc1 hc2 => ?_, fun hc => ?_⟩
    · rw [leverage_ge20_eq df p proposed hostMax h,
        leverageMultiplier_eq_half df _ ((combinedGtQ_iff _ _ _).mpr hc)]
    · have h1 : ¬combinedGtQ (volatilityVar df) (atrVolatility df)
          p.volatility_threshold = true := fun hb =>
        absurd ((combinedGtQ_iff _ _ _).mp hb) (not_lt.mpr hc1)
      have h2 : combinedGtQ (volatilityVar df) (atrVolatility df)
          (7/10 * p.volatility_threshold) = true := by
        rw [combinedGtQ_iff, hq]
        exact hc2
      rw [leverage_ge20_eq df p proposed hostMax h,
        leverageMultiplier_eq_mid df _ h1 h2]
    · have hc1 : max (Real.sqrt ((volatilityVar df : ℝ))) ((atrVolatility df : ℝ)) ≤
          (p.volatility_threshold : ℝ) := by
        nlinarith [Real.sqrt_nonneg ((volatilityVar df : ℝ)),
          le_max_left (Real.sqrt ((volatilityVar df : ℝ))) ((atrVolatility df : ℝ)),
          max_le_iff.mp hc]
      have h1 : ¬combinedGtQ (volatilityVar df) (atrVolatility df)
          p.volatility_threshold = true := fun hb =>
        absurd ((combinedGtQ_iff _ _ _).mp hb) (not_lt.mpr hc1)
      have h2 : ¬combinedGtQ (volatilityVar df) (atrVolatility df)
          (7/10 * p.volatility_threshold) = true := fun hb => by
        rw [combinedGtQ_iff, hq] at hb
        exact absurd hb (not_lt.mpr hc)
      rw [leverage_ge20_eq df p proposed hostMax h,
        leverageMultiplier_eq_one df _ h1 h2, mul_one]
  · intro hb
    rw [leverage_ge20_eq df p proposed hostMax h]
    exact ⟨le_max_left _ _, max_le hb (min_le_right _ _)⟩

theorem leverage_tiering_and_clamp_witness :
    1 ≤ leverage (List.replicate 20 unitCandle) defaultLeverageParams 10 30 ∧
    leverage (List.replicate 20 unitCandle) defaultLeverageParams 10 30 ≤
      min defaultLeverageParams.max_leverage 30 :=
  (leverage_tiering_and_clamp (List.replicate 20 unitCandle) defaultLeverageParams
    10 30 (by simp)).2 (by norm_num [defaultLeverageParams])

/-- C5 (counterexample to the unconditional bound): when the host supplies a
maximum leverage of 0.5, the clamp's lower bound 1 wins and the result, 1,
exceeds `min(max_leverage, host_max) = 0.5` — the claim's "the result always
lies between 1 and min(configured max-leverage, host-supplied max-leverage)"
fails. -/
theorem leverage_bound_claim_false :
    ¬(leverage (List.replicate 20 unitCandle) defaultLeverageParams 10 (1/2) ≤
      min defaultLeverageParams.max_leverage (1/2)) := by
  have h := leverage_ge20_eq (List.replicate 20 unitCandle) defaultLeverageParams
    10 (1/2) (by simp)
  have hub : min (defaultLeverageParams.base_leverage *
      leverageMultiplier (List.replicate 20 unitCandle)
        defaultLeverageParams.volatility_threshold)
      (min defaultLeverageParams.max_leverage (1/2)) ≤ 1 := by
    refine le_trans (min_le_right _ _) ?_
    norm_num [defaultLeverageParams]
  rw [h, max_eq_left hub]
  norm_num [defaultLeverageParams]

/-- C10: with the parameters fixed and at least 20 candles on both sides,
the returned leverage is antitone in the combined volatility
`max(√variance, atr_volatility)` — higher volatility never yields higher
leverage.  (The proposed-leverage arguments are irrelevant in this branch
and may differ.) -/
theorem leverage_antitone_in_volatility (df₁ df₂ : List Candle)
    (p : LeverageParams) (pr₁ pr₂ hostMax : ℚ)
    (h₁ : 20 ≤ df₁.length) (h₂ : 20 ≤ df₂.length)
    (hvol : max (Real.sqrt ((volatilityVar df₂ : ℝ))) ((atrVolatility df₂ : ℝ)) ≤
        max (Real.sqrt ((volatilityVar df₁ : ℝ))) ((atrVolatility df₁ : ℝ))) :
    leverage df₁ p pr₁ hostMax ≤ leverage df₂ p pr₂ hostMax := by
  set t := p.volatility_threshold with ht
  have hq : ((7/10 * t : ℚ) : ℝ) = 7/10 * (t : ℝ) := by
    push_cast
    ring
  have hm : leverageMultiplier df₁ t ≤ leverageMultiplier df₂ t := by
    by_cases c2hi : combinedGtQ (volatilityVar df₂) (atrVolatility df₂) t = true
    · have c1hi : combinedGtQ (volatilityVar df₁) (atrVolatility df₁) t = true :=
        (combinedGtQ_iff _ _ _).mpr
          (lt_of_lt_of_le ((combinedGtQ_iff _ _ _).mp c2hi) hvol)
      rw [leverageMultiplier_eq_half df₁ t c1hi, leverageMultiplier_eq_half df₂ t c2hi]
    · by_cases c2mid : combinedGtQ (volatilityVar df₂) (atrVolatility df₂)
          (7/10 * t) = true
      · rw [leverageMultiplier_eq_mid df₂ t c2hi c2mid]
        by_cases c1hi : combinedGtQ (volatilityVar df₁) (atrVolatility df₁) t = true
        · rw [leverageMultiplier_eq_half df₁ t c1hi]
          norm_num
        · have c1mid : combinedGtQ (volatilityVar df₁) (atrVolatility df₁)
              (7/10 * t) = true := by
            rw [combinedGtQ_iff, hq]
            rw [combinedGtQ_iff, hq] at c2mid
            exact lt_of_lt_of_le c2mid hvol
          rw [leverageMultiplier_eq_mid df₁ t c1hi c1mid]
      · rw [leverageMultiplier_eq_one df₂ t c2hi c2mid]
        exact leverageMultiplier_le_one df₁ t
  rw [leverage_ge20_eq df₁ p pr₁ hostMax h₁, leverage_ge20_eq df₂ p pr₂ hostMax h₂]
  rcases le_or_lt p.base_leverage 0 with hb | hb
  · have e1 : p.base_leverage * leverageMultiplier df₁ t ≤ 1 := by
      nlinarith [leverageMultiplier_pos df₁ t, leverageMultiplier_le_one df₁ t]
    rw [max_eq_left (le_trans (min_le_left _ _) e1)]
    exact le_max_left _ _
  · exact max_le_max le_rfl
      (min_le_min (mul_le_mul_of_nonneg_left hm hb.le) le_rfl)

theorem leverage_antitone_in_volatility_witness :
    leverage (List.replicate 20 unitCandle) defaultLeverageParams 10 30 ≤
    leverage (List.replicate 20 unitCandle) defaultLeverageParams 5 30 :=
  leverage_antitone_in_volatility (List.replicate 20 unitCandle)
    (List.replicate 20 unitCandle) defaultLeverageParams 10 5 30
    (by simp) (by simp) le_rfl

/-!
The indicator engine `populate_indicators` (lines 118-181).  The ta-lib
calls it delegates to are not part of this repository, so their numerics
are modelled from the spec (section 4.1): every derivation below follows
the spec's formula and its global warm-up rule ("all lookback windows use
the previous (window−1) preceding positions; positions before a window is
fully populated carry the undefined marker").  The square root inside the
Bollinger standard deviation is taken as an abstract `sqrtFn : ℚ → ℚ`
parameter: no claim touches the band values, only where they are defined,
and exact real square roots have no computable ℚ representation.
-/

/-- The optimizer-tunable periods `populate_indicators` reads
(`macd_fast`, `macd_slow`, `macd_signal`, `rsi_period`; defaults
12, 26, 9, 14). -/
structure IndicatorParams where
  macd_fast : ℕ
  macd_slow : ℕ
  macd_signal : ℕ
  rsi_period : ℕ
deriving DecidableEq

/-- The default indicator periods. -/
def defaultIndicatorParams : IndicatorParams :=
  { macd_fast := 12, macd_slow := 26, macd_signal := 9, rsi_period := 14 }

/-- Modelled from the spec: exponential moving average of period `p` (the
`ta.EMA` calls and the EMAs inside `ta.MACD`), seeded with the simple
average of the first `p` values; the first `p − 1` positions are NaN, and a
series shorter than `p` is entirely NaN. -/
def emaList (p : ℕ) (xs : List ℚ) : List (Option ℚ) :=
  if xs.length < p ∨ p = 0 then xs.map fun _ => none
  else
    List.replicate (p - 1) none ++
      (((xs.drop p).scanl
          (fun prev x => 2 / ((p : ℚ) + 1) * x + (1 - 2 / ((p : ℚ) + 1)) * prev)
          (mean (xs.take p))).map some)

/-- Modelled from the spec: the MACD line is `EMA(close, fast) −
EMA(close, slow)`, NaN wherever either EMA is. -/
def macdLine (pr : IndicatorParams) (closes : List ℚ) : List (Option ℚ) :=
  List.zipWith (omap2 fun a b => a - b)
    (emaList pr.macd_fast closes) (emaList pr.macd_slow closes)

/-- The defined tail of a column whose NaN cells all lead. -/
def definedTail (l : List (Option ℚ)) : List ℚ :=
  (l.dropWhile Option.isNone).map fun o => o.getD 0

/-- Modelled from the spec: the signal line is the EMA (signal period) of
the MACD line — computed over the MACD line's defined tail and padded back
with the leading NaN run. -/
def macdSignalLine (pr : IndicatorParams) (closes : List ℚ) : List (Option ℚ) :=
  List.replicate ((macdLine pr closes).takeWhile Option.isNone).length none ++
    emaList pr.macd_signal (definedTail (macdLine pr closes))

/-- Modelled from the spec: Wilder RSI over `p` periods (`ta.RSI`), written
`100·ag/(ag + al)`, the rearrangement of `100 − 100/(1 + ag/al)`; the first
`p` positions are NaN. -/
def wilderRsi (p : ℕ) (xs : List ℚ) : List (Option ℚ) :=
  let diffs := List.zipWith (fun a b => b - a) xs xs.tail
  let gains := diffs.map fun d => max d 0
  let losses := diffs.map fun d => max (-d) 0
  if xs.length < p + 1 ∨ p = 0 then xs.map fun _ => none
  else
    List.replicate p none ++
      ((((gains.drop p).zip (losses.drop p)).scanl
          (fun s gl =>
            ((((p : ℚ) - 1) * s.1 + gl.1) / p, (((p : ℚ) - 1) * s.2 + gl.2) / p))
          (mean (gains.take p), mean (losses.take p))).map
        fun s => some (100 * s.1 / (s.1 + s.2)))

/-- Population variance of a window (the square of the rolling standard
deviation `ta.BBANDS` uses). -/
def popVar (l : List ℚ) : ℚ :=
  (l.map fun x => (x - mean l) ^ 2).sum / l.length

/-- The middle Bollinger band: 20-period simple moving average. -/
def bbMiddleband (xs : List ℚ) : List (Option ℚ) :=
  rollingD 20 mean xs

/-- The lower Bollinger band: SMA − 2 standard deviations. -/
def bbLowerband (sqrtFn : ℚ → ℚ) (xs : List ℚ) : List (Option ℚ) :=
  rollingD 20 (fun w => mean w - 2 * sqrtFn (popVar w)) xs

/-- The upper Bollinger band: SMA + 2 standard deviations. -/
def bbUpperband (sqrtFn : ℚ → ℚ) (xs : List ℚ) : List (Option ℚ) :=
  rollingD 20 (fun w => mean w + 2 * sqrtFn (popVar w)) xs

/-- Modelled from the spec: `bb_percent = (close − lower)/(upper − lower)`,
failing to the undefined marker when `upper = lower` (the float source
divides by zero there). -/
def bbPercentCol (sqrtFn : ℚ → ℚ) (xs : List ℚ) : List (Option ℚ) :=
  List.zipWith
    (fun c lu =>
      match lu with
      | (some lo, some up) => if up = lo then none else some ((c - lo) / (up - lo))
      | _ => none)
    xs ((bbLowerband sqrtFn xs).zip (bbUpperband sqrtFn xs))

/-- `bb_width = (upper − lower)/middle`, NaN-propagating. -/
def bbWidthCol (sqrtFn : ℚ → ℚ) (xs : List ℚ) : List (Option ℚ) :=
  List.zipWith
    (fun lu m =>
      match lu, m with
      | (some lo, some up), some mid => some ((up - lo) / mid)
      | _, _ => none)
    ((bbLowerband sqrtFn xs).zip (bbUpperband sqrtFn xs)) (bbMiddleband xs)

/-- `volume_ratio = volume / volume.rolling(20).mean()`, NaN where the
rolling mean is. -/
def volumeRatioCol (vols : List ℚ) : List (Option ℚ) :=
  List.zipWith (fun v m => m.map fun mv => v / mv) vols (rollingD 20 mean vols)

/-- A 5-back shifted combination: `f` applied to the value five positions
earlier and the current one; the first five positions are NaN
(`pct_change(5)` and `close / close.shift(5) - 1`). -/
def shiftPair (k : ℕ) (f : ℚ → ℚ → ℚ) (xs : List ℚ) : List (Option ℚ) :=
  (List.range xs.length).map fun i =>
    if k ≤ i then some (f (xs.getD (i - k) 0) (xs.getD i 0)) else none

/-- An all-zero candle, used only as the (never-read) `getD` fallback. -/
def defCandle : Candle :=
  { openPrice := 0, high := 0, low := 0, close := 0, volume := 0 }

/-- Modelled from the spec: the true range entering each position ≥ 1. -/
def trList (df : List Candle) : List ℚ :=
  List.zipWith
    (fun pc c => max (c.high - c.low) (max |c.high - pc.close| |c.low - pc.close|))
    df df.tail

/-- Modelled from the spec: positive directional movement entering each
position ≥ 1. -/
def plusDMList (df : List Candle) : List ℚ :=
  List.zipWith
    (fun pc c =>
      if pc.low - c.low < c.high - pc.high ∧ 0 < c.high - pc.high
      then c.high - pc.high else 0)
    df df.tail

/-- Modelled from the spec: negative directional movement entering each
position ≥ 1. -/
def minusDMList (df : List Candle) : List ℚ :=
  List.zipWith
    (fun pc c =>
      if c.high - pc.high < pc.low - c.low ∧ 0 < pc.low - c.low
      then pc.low - c.low else 0)
    df df.tail

/-- Wilder running sum with period `p`: seeded with the sum of the first
`p` values, then `s ← s − s/p + x`. -/
def wilderSum (p : ℕ) (xs : List ℚ) : List ℚ :=
  (xs.drop p).scanl (fun s x => s - s / (p : ℚ) + x) (xs.take p).sum

/-- The DX value from the smoothed true range and directional movements. -/
def dxOf (str pdm mdm : ℚ) : ℚ :=
  100 * |100 * pdm / str - 100 * mdm / str| / (100 * pdm / str + 100 * mdm / str)

/-- The DX series: its `k`-th value belongs to candle position `14 + k`. -/
def dxList (df : List Candle) : List ℚ :=
  List.zipWith (fun s pm => dxOf s pm.1 pm.2) (wilderSum 14 (trList df))
    ((wilderSum 14 (plusDMList df)).zip (wilderSum 14 (minusDMList df)))

/-- Modelled from the spec: `ta.ADX(14)` — Wilder-smoothed average of DX,
seeded with the mean of the first 14 DX values; the first 27 positions are
NaN (and a series with fewer than 28 candles is entirely NaN). -/
def adxList (df : List Candle) : List (Option ℚ) :=
  if (dxList df).length < 14 then df.map fun _ => none
  else
    List.replicate 27 none ++
      ((((dxList df).drop 14).scanl (fun s x => (13 * s + x) / 14)
        (mean ((dxList df).take 14))).map some)

/-- Modelled from the spec: the fast stochastic
`100·(close − LL14)/(HH14 − LL14)`; the first 13 positions are NaN. -/
def fastKList (df : List Candle) : List (Option ℚ) :=
  (List.range df.length).map fun i =>
    if 13 ≤ i then
      let w := (df.drop (i - 13)).take 14
      some (100 * ((df.getD i defCandle).close - minList (w.map Candle.low)) /
        (maxList (w.map Candle.high) - minList (w.map Candle.low)))
    else none

/-- A rolling mean over a NaN-able column: NaN until the window is filled
with defined values (the two 3-period smoothings of `ta.STOCH`). -/
def rollingMeanO (w : ℕ) (xs : List (Option ℚ)) : List (Option ℚ) :=
  (List.range xs.length).map fun i =>
    if w ≤ i + 1 then
      let win := (xs.drop (i + 1 - w)).take w
      if win.all Option.isSome then some (mean (win.map fun o => o.getD 0)) else none
    else none

/-- Modelled from the spec: Williams %R(14),
`−100·(HH14 − close)/(HH14 − LL14)`; the first 13 positions are NaN. -/
def williamsRList (df : List Candle) : List (Option ℚ) :=
  (List.range df.length).map fun i =>
    if 13 ≤ i then
      let w := (df.drop (i - 13)).take 14
      some ((-100) * (maxList (w.map Candle.high) - (df.getD i defCandle).close) /
        (maxList (w.map Candle.high) - minList (w.map Candle.low)))
    else none

/-- Modelled from the spec: CCI(20) over the typical price
`(high + low + close)/3`, as `(tp − SMA20)/(0.015 · mean deviation)`; the
first 19 positions are NaN. -/
def cciList (df : List Candle) : List (Option ℚ) :=
  rollingD 20
    (fun w => (w.getLastD 0 - mean w) / ((3/200) * mean (w.map fun x => |x - mean w|)))
    (df.map fun c => (c.high + c.low + c.close) / 3)

/-- Strict `>` between two NaN-able cells; false when either is NaN. -/
def oGTo (a b : Option ℚ) : Bool :=
  match a, b with
  | some x, some y => decide (y < x)
  | _, _ => false

/-- Strict `<` between two NaN-able cells; false when either is NaN. -/
def oLTo (a b : Option ℚ) : Bool :=
  match a, b with
  | some x, some y => decide (x < y)
  | _, _ => false

/-- Non-strict `≤` between two NaN-able cells; false when either is NaN. -/
def oLEo (a b : Option ℚ) : Bool :=
  match a, b with
  | some x, some y => decide (x ≤ y)
  | _, _ => false

/-- Non-strict `≥` between two NaN-able cells; false when either is NaN. -/
def oGEo (a b : Option ℚ) : Bool :=
  match a, b with
  | some x, some y => decide (y ≤ x)
  | _, _ => false

/-- The cell one position back (`shift(1)`): NaN at position 0. -/
def prevO (l : List (Option ℚ)) : ℕ → Option ℚ
  | 0 => none
  | j + 1 => l.getD j none

/-- The `np.where`-style crossover-up column (lines 172-175): the numeral 1
where `macd > signal` and the shifted `macd ≤ signal` both hold, the
numeral 0 everywhere else — including where the comparisons read NaN. -/
def crossUpCol (m s : List (Option ℚ)) : List ℚ :=
  (List.range m.length).map fun i =>
    if (oGTo (m.getD i none) (s.getD i none) && oLEo (prevO m i) (prevO s i)) = true
    then 1 else 0

/-- The crossover-down column (lines 176-179), mirroring `crossUpCol`. -/
def crossDownCol (m s : List (Option ℚ)) : List ℚ :=
  (List.range m.length).map fun i =>
    if (oLTo (m.getD i none) (s.getD i none) && oGEo (prevO m i) (prevO s i)) = true
    then 1 else 0

/-- The frame `populate_indicators` returns: every derived column, each
positionally aligned with the candle index. -/
structure IndicatorFrame where
  macd : List (Option ℚ)
  macdsignal : List (Option ℚ)
  macdhist : List (Option ℚ)
  rsi : List (Option ℚ)
  bb_lowerband : List (Option ℚ)
  bb_middleband : List (Option ℚ)
  bb_upperband : List (Option ℚ)
  bb_percent : List (Option ℚ)
  bb_width : List (Option ℚ)
  volume_mean : List (Option ℚ)
  volume_ratio : List (Option ℚ)
  price_change : List (Option ℚ)
  price_momentum : List (Option ℚ)
  ema_20 : List (Option ℚ)
  ema_50 : List (Option ℚ)
  adx : List (Option ℚ)
  stoch_k : List (Option ℚ)
  stoch_d : List (Option ℚ)
  williams_r : List (Option ℚ)
  cci : List (Option ℚ)
  macd_cross : List ℚ
  macd_cross_down : List ℚ

/-- The indicator engine `populate_indicators`: every derived column of
lines 127-179, in source order. -/
def populate_indicators (sqrtFn : ℚ → ℚ) (pr : IndicatorParams)
    (df : List Candle) : IndicatorFrame :=
  let closes := df.map Candle.close
  let vols := df.map Candle.volume
  let m := macdLine pr closes
  let s := macdSignalLine pr closes
  { macd := m
    macdsignal := s
    macdhist := List.zipWith (omap2 fun a b => a - b) m s
    rsi := wilderRsi pr.rsi_period closes
    bb_lowerband := bbLowerband sqrtFn closes
    bb_middleband := bbMiddleband closes
    bb_upperband := bbUpperband sqrtFn closes
    bb_percent := bbPercentCol sqrtFn closes
    bb_width := bbWidthCol sqrtFn closes
    volume_mean := rollingD 20 mean vols
    volume_ratio := volumeRatioCol vols
    price_change := shiftPair 5 (fun prev cur => (cur - prev) / prev) closes
    price_momentum := shiftPair 5 (fun prev cur => cur / prev - 1) closes
    ema_20 := emaList 20 closes
    ema_50 := emaList 50 closes
    adx := adxList df
    stoch_k := rollingMeanO 3 (fastKList df)
    stoch_d := rollingMeanO 3 (rollingMeanO 3 (fastKList df))
    williams_r := williamsRList df
    cci := cciList df
    macd_cross := crossUpCol m s
    macd_cross_down := crossDownCol m s }

/-!
Length and warm-up lemmas for every column, building to the claims about
`populate_indicators`: the frame is length-preserving, and each numeric
column carries the undefined marker while its lookback window is
unfilled — while the two crossover columns carry the numeral 0 there.
-/

theorem getElem?_zipWith' {α β γ : Type} (f : α → β → γ) (a : List α) (b : List β)
    (i : ℕ) :
    (List.zipWith f a b)[i]? = a[i]?.bind fun x => b[i]?.map fun y => f x y := by
  induction a generalizing b i with
  | nil => simp
  | cons x xs ih =>
    cases b with
    | nil => simp
    | cons y ys =>
      cases i with
      | zero => simp
      | succ j => simpa using ih ys j

theorem getElem?_zip' {α β : Type} (a : List α) (b : List β) (i : ℕ) :
    (a.zip b)[i]? = a[i]?.bind fun x => b[i]?.map fun y => (x, y) :=
  getElem?_zipWith' Prod.mk a b i

theorem length_rollingD (w : ℕ) (f : List ℚ → ℚ) (xs : List ℚ) :
    (rollingD w f xs).length = xs.length := by
  unfold rollingD
  split_ifs with hw
  · simp
  · simp only [List.length_append, List.length_replicate, List.length_map,
      List.length_range]
    rcases Nat.le_total (w - 1) xs.length with hwl | hwl
    · rw [min_eq_left hwl]
      omega
    · rw [min_eq_right hwl]
      omega

theorem rollingD_warmup (w : ℕ) (f : List ℚ → ℚ) (xs : List ℚ) (i : ℕ)
    (h1 : i < w - 1) (h2 : i < xs.length) :
    (rollingD w f xs)[i]? = some none := by
  unfold rollingD
  rw [if_neg (by omega)]
  rw [List.getElem?_append, List.length_replicate, if_pos (lt_min h1 h2),
    List.getElem?_replicate, if_pos (lt_min h1 h2)]

theorem length_emaList (p : ℕ) (xs : List ℚ) : (emaList p xs).length = xs.length := by
  unfold emaList
  split_ifs with h
  · simp
  · push_neg at h
    simp only [List.length_append, List.length_replicate, List.length_map,
      List.length_scanl, List.length_drop]
    omega

theorem emaList_warmup (p : ℕ) (xs : List ℚ) (i : ℕ) (h1 : i < p - 1)
    (h2 : i < xs.length) :
    (emaList p xs)[i]? = some none := by
  unfold emaList
  split_ifs with h
  · rw [List.getElem?_map, List.getElem?_eq_getElem h2]
    rfl
  · rw [List.getElem?_append, List.length_replicate, if_pos h1,
      List.getElem?_replicate, if_pos h1]

theorem zipWith_omap2_none_left (f : ℚ → ℚ → ℚ) (a b : List (Option ℚ)) (i : ℕ)
    (ha : a[i]? = some none) (hb : i < b.length) :
    (List.zipWith (omap2 f) a b)[i]? = some none := by
  rw [getElem?_zipWith', ha, List.getElem?_eq_getElem hb]
  rfl

theorem zipWith_omap2_none_right (f : ℚ → ℚ → ℚ) (a b : List (Option ℚ)) (i : ℕ)
    (ha : i < a.length) (hb : b[i]? = some none) :
    (List.zipWith (omap2 f) a b)[i]? = some none := by
  rw [getElem?_zipWith', List.getElem?_eq_getElem ha, hb]
  cases a[i] <;> rfl

theorem length_macdLine (pr : IndicatorParams) (closes : List ℚ) :
    (macdLine pr closes).length = closes.length := by
  unfold macdLine
  rw [List.length_zipWith, length_emaList, length_emaList, Nat.min_self]

theorem macdLine_warmup (pr : IndicatorParams) (closes : List ℚ) (i : ℕ)
    (h1 : i < max pr.macd_fast pr.macd_slow - 1) (h2 : i < closes.length) :
    (macdLine pr closes)[i]? = some none := by
  unfold macdLine
  rcases Nat.le_total pr.macd_fast pr.macd_slow with hfs | hfs
  · rw [Nat.max_eq_right hfs] at h1
    exact zipWith_omap2_none_right _ _ _ i (by rw [length_emaList]; exact h2)
      (emaList_warmup _ _ i h1 h2)
  · rw [Nat.max_eq_left hfs] at h1
    exact zipWith_omap2_none_left _ _ _ i (emaList_warmup _ _ i h1 h2)
      (by rw [length_emaList]; exact h2)

theorem length_macdSignalLine (pr : IndicatorParams) (closes : List ℚ) :
    (macdSignalLine pr closes).length = closes.length := by
  unfold macdSignalLine
  rw [List.length_append, List.length_replicate, length_emaList]
  unfold definedTail
  rw [List.length_map]
  have h := congrArg List.length
    (List.takeWhile_append_dropWhile (p := Option.isNone) (l := macdLine pr closes))
  rw [List.length_append, length_macdLine] at h
  omega

theorem lt_length_takeWhile_isNone :
    ∀ (l : List (Option ℚ)) (m i : ℕ),
      (∀ j, j < m → j < l.length → l[j]? = some none) → i < m → i < l.length →
      i < (l.takeWhile Option.isNone).length
  | [], _, _, _, _, h2 => by simp at h2
  | x :: t, m, i, hall, h1, h2 => by
    have hx : x = none := by
      have h0 := hall 0 (by omega) (by simp)
      simpa using h0
    subst hx
    rw [List.takeWhile_cons_of_pos (by simp)]
    cases i with
    | zero => simp
    | succ j =>
      have hj : j < (t.takeWhile Option.isNone).length := by
        apply lt_length_takeWhile_isNone t (m - 1) j
        · intro k hk1 hk2
          have hk := hall (k + 1) (by omega) (by simpa using Nat.succ_lt_succ hk2)
          simpa using hk
        · omega
        · simpa using h2
      simpa using Nat.succ_lt_succ hj

theorem macdSignalLine_warmup (pr : IndicatorParams) (closes : List ℚ) (i : ℕ)
    (h1 : i < max pr.macd_fast pr.macd_slow - 1) (h2 : i < closes.length) :
    (macdSignalLine pr closes)[i]? = some none := by
  unfold macdSignalLine
  have hK : i < ((macdLine pr closes).takeWhile Option.isNone).length :=
    lt_length_takeWhile_isNone _ _ i
      (fun j hj1 hj2 => macdLine_warmup pr closes j hj1 (by rwa [length_macdLine] at hj2))
      h1 (by rw [length_macdLine]; exact h2)
  rw [List.getElem?_append, List.length_replicate, if_pos hK,
    List.getElem?_replicate, if_pos hK]

theorem length_wilderRsi (p : ℕ) (xs : List ℚ) :
    (wilderRsi p xs).length = xs.length := by
  unfold wilderRsi
  split_ifs with h
  · simp
  · push_neg at h
    simp only [List.length_append, List.length_replicate, List.length_map,
      List.length_scanl, List.length_zip, List.length_drop, List.length_zipWith,
      List.length_tail]
    omega

theorem wilderRsi_warmup (p : ℕ) (xs : List ℚ) (i : ℕ) (h1 : i < p)
    (h2 : i < xs.length) :
    (wilderRsi p xs)[i]? = some none := by
  unfold wilderRsi
  split_ifs with h
  · rw [List.getElem?_map, List.getElem?_eq_getElem h2]
    rfl
  · rw [List.getElem?_append, List.length_replicate, if_pos h1,
      List.getElem?_replicate, if_pos h1]

theorem length_shiftPair (k : ℕ) (f : ℚ → ℚ → ℚ) (xs : List ℚ) :
    (shiftPair k f xs).length = xs.length := by
  simp [shiftPair]

theorem shiftPair_warmup (k : ℕ) (f : ℚ → ℚ → ℚ) (xs : List ℚ) (i : ℕ)
    (h1 : i < k) (h2 : i < xs.length) :
    (shiftPair k f xs)[i]? = some none := by
  unfold shiftPair
  rw [List.getElem?_map, List.getElem?_range h2]
  have hk : ¬ k ≤ i := by omega
  simp [hk]

theorem length_trList (df : List Candle) : (trList df).length = df.length - 1 := by
  unfold trList
  rw [List.length_zipWith, List.length_tail]
  omega

theorem length_plusDMList (df : List Candle) :
    (plusDMList df).length = df.length - 1 := by
  unfold plusDMList
  rw [List.length_zipWith, List.length_tail]
  omega

theorem length_minusDMList (df : List Candle) :
    (minusDMList df).length = df.length - 1 := by
  unfold minusDMList
  rw [List.length_zipWith, List.length_tail]
  omega

theorem length_wilderSum (p : ℕ) (xs : List ℚ) :
    (wilderSum p xs).length = xs.length - p + 1 := by
  unfold wilderSum
  rw [List.length_scanl, List.length_drop]

theorem length_dxList (df : List Candle) :
    (dxList df).length = df.length - 1 - 14 + 1 := by
  unfold dxList
  rw [List.length_zipWith, List.length_zip, length_wilderSum, length_wilderSum,
    length_wilderSum, length_trList, length_plusDMList, length_minusDMList]
  omega

theorem length_adxList (df : List Candle) : (adxList df).length = df.length := by
  unfold adxList
  split_ifs with h
  · simp
  · rw [List.length_append, List.length_replicate, List.length_map,
      List.length_scanl, List.length_drop, length_dxList]
    rw [length_dxList] at h
    omega

theorem adxList_warmup (df : List Candle) (i : ℕ) (h1 : i < 27)
    (h2 : i < df.length) :
    (adxList df)[i]? = some none := by
  unfold adxList
  split_ifs with h
  · rw [List.getElem?_map, List.getElem?_eq_getElem h2]
    rfl
  · rw [List.getElem?_append, List.length_replicate, if_pos h1,
      List.getElem?_replicate, if_pos h1]

theorem length_fastKList (df : List Candle) :
    (fastKList df).length = df.length := by
  simp [fastKList]

theorem fastKList_warmup (df : List Candle) (i : ℕ) (h1 : i < 13)
    (h2 : i < df.length) :
    (fastKList df)[i]? = some none := by
  unfold fastKList
  rw [List.getElem?_map, List.getElem?_range h2]
  have hk : ¬ 13 ≤ i := by omega
  simp [hk]

theorem length_williamsRList (df : List Candle) :
    (williamsRList df).length = df.length := by
  simp [williamsRList]

theorem williamsRList_warmup (df : List Candle) (i : ℕ) (h1 : i < 13)
    (h2 : i < df.length) :
    (williamsRList df)[i]? = some none := by
  unfold williamsRList
  rw [List.getElem?_map, List.getElem?_range h2]
  have hk : ¬ 13 ≤ i := by omega
  simp [hk]

theorem length_rollingMeanO (w : ℕ) (xs : List (Option ℚ)) :
    (rollingMeanO w xs).length = xs.length := by
  simp [rollingMeanO]

theorem rollingMeanO_warmup_of (w : ℕ) (xs : List (Option ℚ)) (m i : ℕ)
    (hall : ∀ j, j < m → j < xs.length → xs[j]? = some none)
    (h1 : i < m + w - 1) (h2 : i < xs.length) (hw : 0 < w) :
    (rollingMeanO w xs)[i]? = some none := by
  unfold rollingMeanO
  rw [List.getElem?_map, List.getElem?_range h2]
  simp only [Option.map_some']
  by_cases hcase : w ≤ i + 1
  · rw [if_pos hcase]
    have hwin : ((xs.drop (i + 1 - w)).take w)[0]? = some none := by
      rw [List.getElem?_take, if_pos hw, List.getElem?_drop]
      simpa using hall (i + 1 - w) (by omega) (by omega)
    have hfail : ¬ ((xs.drop (i + 1 - w)).take w).all Option.isSome = true := by
      intro hall2
      have hmem : (none : Option ℚ) ∈ (xs.drop (i + 1 - w)).take w :=
        List.getElem?_mem hwin
      have hsome := List.all_eq_true.mp hall2 _ hmem
      simp at hsome
    rw [if_neg hfail]
  · rw [if_neg hcase]

theorem length_cciList (df : List Candle) : (cciList df).length = df.length := by
  unfold cciList
  rw [length_rollingD, List.length_map]

theorem cciList_warmup (df : List Candle) (i : ℕ) (h1 : i < 19)
    (h2 : i < df.length) :
    (cciList df)[i]? = some none := by
  unfold cciList
  exact rollingD_warmup _ _ _ i (by omega) (by rwa [List.length_map])

theorem length_bbPercentCol (sqrtFn : ℚ → ℚ) (xs : List ℚ) :
    (bbPercentCol sqrtFn xs).length = xs.length := by
  unfold bbPercentCol bbLowerband bbUpperband
  rw [List.length_zipWith, List.length_zip, length_rollingD, length_rollingD]
  omega

theorem bbPercentCol_warmup (sqrtFn : ℚ → ℚ) (xs : List ℚ) (i : ℕ) (h1 : i < 19)
    (h2 : i < xs.length) :
    (bbPercentCol sqrtFn xs)[i]? = some none := by
  unfold bbPercentCol
  rw [getElem?_zipWith', List.getElem?_eq_getElem h2, getElem?_zip']
  unfold bbLowerband bbUpperband
  rw [rollingD_warmup _ _ _ i (by omega) h2]
  have hu : i < (rollingD 20 (fun w => mean w + 2 * sqrtFn (popVar w)) xs).length := by
    rwa [length_rollingD]
  rw [List.getElem?_eq_getElem hu]
  rfl

theorem length_bbWidthCol (sqrtFn : ℚ → ℚ) (xs : List ℚ) :
    (bbWidthCol sqrtFn xs).length = xs.length := by
  unfold bbWidthCol bbLowerband bbUpperband bbMiddleband
  rw [List.length_zipWith, List.length_zip, length_rollingD, length_rollingD,
    length_rollingD]
  omega

theorem bbWidthCol_warmup (sqrtFn : ℚ → ℚ) (xs : List ℚ) (i : ℕ) (h1 : i < 19)
    (h2 : i < xs.length) :
    (bbWidthCol sqrtFn xs)[i]? = some none := by
  unfold bbWidthCol
  rw [getElem?_zipWith', getElem?_zip']
  unfold bbLowerband bbUpperband bbMiddleband
  rw [rollingD_warmup _ _ _ i (by omega) h2]
  have hu : i < (rollingD 20 (fun w => mean w + 2 * sqrtFn (popVar w)) xs).length := by
    rwa [length_rollingD]
  have hm : i < (rollingD 20 mean xs).length := by rwa [length_rollingD]
  rw [List.getElem?_eq_getElem hu, List.getElem?_eq_getElem hm]
  rfl

theorem length_volumeRatioCol (vols : List ℚ) :
    (volumeRatioCol vols).length = vols.length := by
  unfold volumeRatioCol
  rw [List.length_zipWith, length_rollingD]
  omega

theorem volumeRatioCol_warmup (vols : List ℚ) (i : ℕ) (h1 : i < 19)
    (h2 : i < vols.length) :
    (volumeRatioCol vols)[i]? = some none := by
  unfold volumeRatioCol
  rw [getElem?_zipWith', List.getElem?_eq_getElem h2,
    rollingD_warmup _ _ _ i (by omega) h2]
  rfl

theorem length_crossUpCol (m s : List (Option ℚ)) :
    (crossUpCol m s).length = m.length := by
  simp [crossUpCol]

theorem length_crossDownCol (m s : List (Option ℚ)) :
    (crossDownCol m s).length = m.length := by
  simp [crossDownCol]

theorem oGTo_none_left (b : Option ℚ) : oGTo none b = false := rfl

theorem oLTo_none_left (b : Option ℚ) : oLTo none b = false := rfl

theorem crossUpCol_zero_of_none (m s : List (Option ℚ)) (i : ℕ)
    (hm : m[i]? = some none) (h2 : i < m.length) :
    (crossUpCol m s)[i]? = some 0 := by
  unfold crossUpCol
  rw [List.getElem?_map, List.getElem?_range h2]
  simp [List.getD_eq_getElem?_getD, hm, oGTo_none_left]

theorem crossDownCol_zero_of_none (m s : List (Option ℚ)) (i : ℕ)
    (hm : m[i]? = some none) (h2 : i < m.length) :
    (crossDownCol m s)[i]? = some 0 := by
  unfold crossDownCol
  rw [List.getElem?_map, List.getElem?_range h2]
  simp [List.getD_eq_getElem?_getD, hm, oLTo_none_left]

/-- C8: for every candle series — shorter than the longest lookback of 50
included — `populate_indicators` returns a frame in which every column has
exactly the input's length, and every numeric column carries the undefined
marker (`none`, never a fabricated number) at each position whose lookback
window is not yet filled.  Nothing is raised: the engine is a total
function. -/
theorem populate_indicators_shape (sqrtFn : ℚ → ℚ) (pr : IndicatorParams)
    (df : List Candle) :
    ((populate_indicators sqrtFn pr df).macd.length = df.length ∧
     (populate_indicators sqrtFn pr df).macdsignal.length = df.length ∧
     (populate_indicators sqrtFn pr df).macdhist.length = df.length ∧
     (populate_indicators sqrtFn pr df).rsi.length = df.length ∧
     (populate_indicators sqrtFn pr df).bb_lowerband.length = df.length ∧
     (populate_indicators sqrtFn pr df).bb_middleband.length = df.length ∧
     (populate_indicators sqrtFn pr df).bb_upperband.length = df.length ∧
     (populate_indicators sqrtFn pr df).bb_percent.length = df.length ∧
     (populate_indicators sqrtFn pr df).bb_width.length = df.length ∧
     (populate_indicators sqrtFn pr df).volume_mean.length = df.length ∧
     (populate_indicators sqrtFn pr df).volume_ratio.length = df.length ∧
     (populate_indicators sqrtFn pr df).price_change.length = df.length ∧
     (populate_indicators sqrtFn pr df).price_momentum.length = df.length ∧
     (populate_indicators sqrtFn pr df).ema_20.length = df.length ∧
     (populate_indicators sqrtFn pr df).ema_50.length = df.length ∧
     (populate_indicators sqrtFn pr df).adx.length = df.length ∧
     (populate_indicators sqrtFn pr df).stoch_k.length = df.length ∧
     (populate_indicators sqrtFn pr df).stoch_d.length = df.length ∧
     (populate_indicators sqrtFn pr df).williams_r.length = df.length ∧
     (populate_indicators sqrtFn pr df).cci.length = df.length ∧
     (populate_indicators sqrtFn pr df).macd_cross.length = df.length ∧
     (populate_indicators sqrtFn pr df).macd_cross_down.length = df.length) ∧
    ((∀ i, i < max pr.macd_fast pr.macd_slow - 1 → i < df.length →
        (populate_indicators sqrtFn pr df).macd[i]? = some none) ∧
     (∀ i, i < max pr.macd_fast pr.macd_slow - 1 → i < df.length →
        (populate_indicators sqrtFn pr df).macdsignal[i]? = some none) ∧
     (∀ i, i < max pr.macd_fast pr.macd_slow - 1 → i < df.length →
        (populate_indicators sqrtFn pr df).macdhist[i]? = some none) ∧
     (∀ i, i < pr.rsi_period → i < df.length →
        (populate_indicators sqrtFn pr df).rsi[i]? = some none) ∧
     (∀ i, i < 19 → i < df.length →
        (populate_indicators sqrtFn pr df).bb_lowerband[i]? = some none) ∧
     (∀ i, i < 19 → i < df.length →
        (populate_indicators sqrtFn pr df).bb_middleband[i]? = some none) ∧
     (∀ i, i < 19 → i < df.length →
        (populate_indicators sqrtFn pr df).bb_upperband[i]? = some none) ∧
     (∀ i, i < 19 → i < df.length →
        (populate_indicators sqrtFn pr df).bb_percent[i]? = some none) ∧
     (∀ i, i < 19 → i < df.length →
        (populate_indicators sqrtFn pr df).bb_width[i]? = some none) ∧
     (∀ i, i < 19 → i < df.length →
        (populate_indicators sqrtFn pr df).volume_mean[i]? = some none) ∧
     (∀ i, i < 19 → i < df.length →
        (populate_indicators sqrtFn pr df).volume_ratio[i]? = some none) ∧
     (∀ i, i < 5 → i < df.length →
        (populate_indicators sqrtFn pr df).price_change[i]? = some none) ∧
     (∀ i, i < 5 → i < df.length →
        (populate_indicators sqrtFn pr df).price_momentum[i]? = some none) ∧
     (∀ i, i < 19 → i < df.length →
        (populate_indicators sqrtFn pr df).ema_20[i]? = some none) ∧
     (∀ i, i < 49 → i < df.length →
        (populate_indicators sqrtFn pr df).ema_50[i]? = some none) ∧
     (∀ i, i < 27 → i < df.length →
        (populate_indicators sqrtFn pr df).adx[i]? = some none) ∧
     (∀ i, i < 15 → i < df.length →
        (populate_indicators sqrtFn pr df).stoch_k[i]? = some none) ∧
     (∀ i, i < 17 → i < df.length →
        (populate_indicators sqrtFn pr df).stoch_d[i]? = some none) ∧
     (∀ i, i < 13 → i < df.length →
        (populate_indicators sqrtFn pr df).williams_r[i]? = some none) ∧
     (∀ i, i < 19 → i < df.length →
        (populate_indicators sqrtFn pr df).cci[i]? = some none)) := by
  have hlen : (df.map Candle.close).length = df.length := List.length_map df Candle.close
  have hvlen : (df.map Candle.volume).length = df.length := List.length_map df Candle.volume
  have hkwarm : ∀ j, j < 15 → j < (fastKList df).length →
      (rollingMeanO 3 (fastKList df))[j]? = some none := by
    intro j hj1 hj2
    exact rollingMeanO_warmup_of 3 (fastKList df) 13 j
      (fun k hk1 hk2 => fastKList_warmup df k hk1 (by rwa [length_fastKList] at hk2))
      (by omega) hj2 (by norm_num)
  refine ⟨⟨?_, ?_, ?_, ?_, ?_, ?_, ?_, ?_, ?_, ?_, ?_, ?_, ?_, ?_, ?_, ?_, ?_, ?_,
      ?_, ?_, ?_, ?_⟩,
    ?_, ?_, ?_, ?_, ?_, ?_, ?_, ?_, ?_, ?_, ?_, ?_, ?_, ?_, ?_, ?_, ?_, ?_, ?_, ?_⟩
  · exact (length_macdLine pr _).trans hlen
  · exact (length_macdSignalLine pr _).trans hlen
  · show (List.zipWith (omap2 fun a b => a - b) (macdLine pr (df.map Candle.close))
      (macdSignalLine pr (df.map Candle.close))).length = df.length
    rw [List.length_zipWith, length_macdLine, length_macdSignalLine, Nat.min_self]
    exact hlen
  · exact (length_wilderRsi _ _).trans hlen
  · show (bbLowerband sqrtFn (df.map Candle.close)).length = df.length
    unfold bbLowerband
    exact (length_rollingD _ _ _).trans hlen
  · show (bbMiddleband (df.map Candle.close)).length = df.length
    unfold bbMiddleband
    exact (length_rollingD _ _ _).trans hlen
  · show (bbUpperband sqrtFn (df.map Candle.close)).length = df.length
    unfold bbUpperband
    exact (length_rollingD _ _ _).trans hlen
  · exact (length_bbPercentCol _ _).trans hlen
  · exact (length_bbWidthCol _ _).trans hlen
  · show (rollingD 20 mean (df.map Candle.volume)).length = df.length
    exact (length_rollingD _ _ _).trans hvlen
  · exact (length_volumeRatioCol _).trans hvlen
  · show (shiftPair 5 (fun prev cur => (cur - prev) / prev)
      (df.map Candle.close)).length = df.length
    exact (length_shiftPair _ _ _).trans hlen
  · show (shiftPair 5 (fun prev cur => cur / prev - 1)
      (df.map Candle.close)).length = df.length
    exact (length_shiftPair _ _ _).trans hlen
  · show (emaList 20 (df.map Candle.close)).length = df.length
    exact (length_emaList _ _).trans hlen
  · show (emaList 50 (df.map Candle.close)).length = df.length
    exact (length_emaList _ _).trans hlen
  · exact length_adxList df
  · exact (length_rollingMeanO _ _).trans (length_fastKList df)
  · exact (length_rollingMeanO _ _).trans
      ((length_rollingMeanO _ _).trans (length_fastKList df))
  · exact length_williamsRList df
  · exact length_cciList df
  · exact (length_crossUpCol _ _).trans ((length_macdLine pr _).trans hlen)
  · exact (length_crossDownCol _ _).trans ((length_macdLine pr _).trans hlen)
  · exact fun i h1 h2 => macdLine_warmup pr _ i h1 (by rwa [hlen])
  · exact fun i h1 h2 => macdSignalLine_warmup pr _ i h1 (by rwa [hlen])
  · intro i h1 h2
    exact zipWith_omap2_none_left _ _ _ i (macdLine_warmup pr _ i h1 (by rwa [hlen]))
      (by rw [length_macdSignalLine, hlen]; exact h2)
  · exact fun i h1 h2 => wilderRsi_warmup _ _ i h1 (by rwa [hlen])
  · intro i h1 h2
    show (bbLowerband sqrtFn (df.map Candle.close))[i]? = some none
    unfold bbLowerband
    exact rollingD_warmup _ _ _ i (by omega) (by rwa [hlen])
  · intro i h1 h2
    show (bbMiddleband (df.map Candle.close))[i]? = some none
    unfold bbMiddleband
    exact rollingD_warmup _ _ _ i (by omega) (by rwa [hlen])
  · intro i h1 h2
    show (bbUpperband sqrtFn (df.map Candle.close))[i]? = some none
    unfold bbUpperband
    exact rollingD_warmup _ _ _ i (by omega) (by rwa [hlen])
  · exact fun i h1 h2 => bbPercentCol_warmup _ _ i h1 (by rwa [hlen])
  · exact fun i h1 h2 => bbWidthCol_warmup _ _ i h1 (by rwa [hlen])
  · intro i h1 h2
    show (rollingD 20 mean (df.map Candle.volume))[i]? = some none
    exact rollingD_warmup _ _ _ i (by omega) (by rwa [hvlen])
  · exact fun i h1 h2 => volumeRatioCol_warmup _ i h1 (by rwa [hvlen])
  · intro i h1 h2
    show (shiftPair 5 (fun prev cur => (cur - prev) / prev)
      (df.map Candle.close))[i]? = some none
    exact shiftPair_warmup _ _ _ i h1 (by rwa [hlen])
  · intro i h1 h2
    show (shiftPair 5 (fun prev cur => cur / prev - 1)
      (df.map Candle.close))[i]? = some none
    exact shiftPair_warmup _ _ _ i h1 (by rwa [hlen])
  · intro i h1 h2
    show (emaList 20 (df.map Candle.close))[i]? = some none
    exact emaList_warmup _ _ i (by omega) (by rwa [hlen])
  · intro i h1 h2
    show (emaList 50 (df.map Candle.close))[i]? = some none
    exact emaList_warmup _ _ i (by omega) (by rwa [hlen])
  · exact fun i h1 h2 => adxList_warmup df i h1 h2
  · exact fun i h1 h2 => hkwarm i h1 (by rwa [length_fastKList])
  · intro i h1 h2
    exact rollingMeanO_warmup_of 3 (rollingMeanO 3 (fastKList df)) 15 i
      (fun j hj1 hj2 => hkwarm j hj1 (by rwa [length_rollingMeanO] at hj2))
      (by omega) (by rwa [length_rollingMeanO, length_fastKList]) (by norm_num)
  · exact fun i h1 h2 => williamsRList_warmup df i h1 h2
  · exact fun i h1 h2 => cciList_warmup df i h1 h2

/-- C7 (amended): in the MACD warm-up region the numeric columns carry the
undefined marker — `macd` itself, and `macdhist`, which consumes it,
propagates it — while the two `np.where` crossover flag columns carry the
numeral 0 there: a comparison that reads an undefined cell is false, and
`np.where` then writes a plain 0, not a marker. -/
theorem cross_columns_zero_in_warmup (sqrtFn : ℚ → ℚ) (pr : IndicatorParams)
    (df : List Candle) (i : ℕ) (h1 : i < max pr.macd_fast pr.macd_slow - 1)
    (h2 : i < df.length) :
    (populate_indicators sqrtFn pr df).macd[i]? = some none ∧
    (populate_indicators sqrtFn pr df).macdhist[i]? = some none ∧
    (populate_indicators sqrtFn pr df).macd_cross[i]? = some 0 ∧
    (populate_indicators sqrtFn pr df).macd_cross_down[i]? = some 0 := by
  have hlen : (df.map Candle.close).length = df.length := List.length_map df Candle.close
  have hm : (macdLine pr (df.map Candle.close))[i]? = some none :=
    macdLine_warmup pr _ i h1 (by rwa [hlen])
  have hml : i < (macdLine pr (df.map Candle.close)).length := by
    rw [length_macdLine, hlen]
    exact h2
  refine ⟨hm, ?_, ?_, ?_⟩
  · exact zipWith_omap2_none_left _ _ _ i hm
      (by rw [length_macdSignalLine, hlen]; exact h2)
  · exact crossUpCol_zero_of_none _ _ i hm hml
  · exact crossDownCol_zero_of_none _ _ i hm hml

theorem cross_columns_zero_in_warmup_witness :
    (populate_indicators (fun q => q) defaultIndicatorParams [unitCandle]).macd[0]? =
      some none ∧
    (populate_indicators (fun q => q) defaultIndicatorParams [unitCandle]).macdhist[0]? =
      some none ∧
    (populate_indicators (fun q => q) defaultIndicatorParams [unitCandle]).macd_cross[0]? =
      some 0 ∧
    (populate_indicators (fun q => q) defaultIndicatorParams
        [unitCandle]).macd_cross_down[0]? = some 0 :=
  cross_columns_zero_in_warmup (fun q => q) defaultIndicatorParams [unitCandle] 0
    (by decide) (by decide)

/-- C7 (counterexample): on a one-candle series — where every lookback is
unfilled — the `macd` column holds the undefined marker at position 0, but
the `macd_cross` flag column holds the numeral 0 there, not a marker: the
claim that the crossover columns, too, carry an explicit undefined marker at
early positions is false of the `np.where` construction. -/
theorem macd_cross_numeric_zero_not_marker :
    (populate_indicators (fun q => q) defaultIndicatorParams [unitCandle]).macd =
      [none] ∧
    (populate_indicators (fun q => q) defaultIndicatorParams [unitCandle]).macd_cross =
      [0] := by
  constructor <;> rfl

end Momentum
